import Mathlib

/-!
Shallow embedding of the AeroScope application core (src/app.py).

The embedding models the dynamically-typed Python values flowing through the
code as a JSON value type, and models each Python operation that can raise
(attribute access, subscripting, membership tests, iteration, string join)
in an exception monad Py := Except PyExn.  Outcomes of the external HTTP
calls (requests.get followed by response.json) are inputs of the embedded
functions, so that every network/malformed-payload scenario is a value the
theorems can quantify over.  Python floats are modelled as rationals.
-/

/-- JSON values, as produced by response.json(). -/
inductive Json where
  | null : Json
  | bool : Bool → Json
  | num : ℚ → Json
  | str : String → Json
  | arr : List Json → Json
  | obj : List (String × Json) → Json
deriving Repr

/-- Python truthiness of a JSON value (used by `if data:`-style tests). -/
def Json.truthy : Json → Bool
  | .null => false
  | .bool b => b
  | .num q => decide (q ≠ 0)
  | .str s => !(s == "")
  | .arr xs => !xs.isEmpty
  | .obj kvs => !kvs.isEmpty

/-- Python `v == t` for a string literal t: true exactly on the equal
string (Python equality between a string and any non-string is False). -/
def Json.eqStr : Json → String → Bool
  | .str s, t => s == t
  | _, _ => false

/-- Is this JSON value a string? -/
def Json.isStr : Json → Bool
  | .str _ => true
  | _ => false

/-- Binding of a key in a parsed JSON object (with duplicate keys, Python's
json.loads keeps the last binding, hence the getLast?). -/
def lookupKey (kvs : List (String × Json)) (k : String) : Option Json :=
  ((kvs.filter (fun p => p.1 == k)).getLast?).map Prod.snd

/-- Kinds of raised exception the route handlers distinguish:
requests.RequestException (network errors; in current requests versions the
JSON-decode error of response.json() is also a RequestException) versus every
other exception (KeyError, TypeError, AttributeError, ValueError, ...). -/
inductive PyExn where
  | requestExn : PyExn
  | otherExn : PyExn
deriving DecidableEq, Repr

/-- Computations over Python values: .error is a raised exception. -/
abbrev Py (α : Type) := Except PyExn α

/-- Python `d.get(k)` / `d.get(k, default)`: none when the key is absent
(the caller applies the default); AttributeError when the receiver is not
a dict. -/
def pyGet : Json → String → Py (Option Json)
  | .obj kvs, k => .ok (lookupKey kvs k)
  | _, _ => .error .otherExn

/-- Python `d[k]` with a string key: KeyError when the key is absent,
TypeError when the receiver is not a dict. -/
def pySubscr : Json → String → Py Json
  | .obj kvs, k =>
    match lookupKey kvs k with
    | some v => .ok v
    | none => .error .otherExn
  | _, _ => .error .otherExn

/-- Python `x[0]`: first element of a list (IndexError when empty), first
character of a string, TypeError/KeyError otherwise. -/
def pyIndex0 : Json → Py Json
  | .arr (x :: _) => .ok x
  | .arr [] => .error .otherExn
  | .str s =>
    match s.data with
    | c :: _ => .ok (.str (String.mk [c]))
    | [] => .error .otherExn
  | _ => .error .otherExn

/-- pat occurs as a contiguous substring of s. -/
def strHasSubstr (s pat : String) : Bool :=
  (List.range (s.length + 1)).any (fun i => pat.data.isPrefixOf (s.data.drop i))

/-- Python `needle in container` for a string needle: substring test on
strings, element equality on lists, key membership on dicts, TypeError on
other values. -/
def pyContains (needle : String) : Json → Py Bool
  | .str s => .ok (strHasSubstr s needle)
  | .arr xs => .ok (xs.any (fun x => x.eqStr needle))
  | .obj kvs => .ok (kvs.any (fun p => p.1 == needle))
  | .null => .error .otherExn
  | .bool _ => .error .otherExn
  | .num _ => .error .otherExn

/-- Python `for x in v`: elements of a list, characters of a string, keys of
a dict, TypeError on other values. -/
def pyIterate : Json → Py (List Json)
  | .arr xs => .ok xs
  | .str s => .ok (s.data.map (fun c => Json.str (String.mk [c])))
  | .obj kvs => .ok (kvs.map (fun p => Json.str p.1))
  | .null => .error .otherExn
  | .bool _ => .error .otherExn
  | .num _ => .error .otherExn

/-- Python `', '.join(parts)`: TypeError unless every element is a string. -/
def pyJoinComma (parts : List Json) : Py String :=
  match parts.mapM (fun p => match p with | Json.str s => some s | _ => none) with
  | some ss => .ok (String.intercalate ", " ss)
  | none => .error .otherExn

/-- Outcome of one requests.get call: either the call raised (timeout,
connection error, ...), or it returned a response with a status code and a
body whose JSON parse either succeeds or raises (malformed payload). -/
inductive HttpOutcome where
  | raised : HttpOutcome
  | response : Nat → Py Json → HttpOutcome

/-! ## Geocoding resolver (src/app.py lines 49-138) -/

/-- Lines 121-127 of get_location_name_fallback: append location_data[k] to
parts when k is a member of location_data. -/
def appendIfMember (location_data : Json) (k : String) (parts : List Json) :
    Py (List Json) :=
  match pyContains k location_data with
  | .error e => .error e
  | .ok b =>
    if b then
      match pySubscr location_data k with
      | .error e => .error e
      | .ok v => .ok (parts ++ [v])
    else .ok parts

/-- Lines 121-127: collect the name, state, country fragments in order. -/
def fallbackParts (location_data : Json) : Py (List Json) :=
  match appendIfMember location_data "name" [] with
  | .error e => .error e
  | .ok p1 =>
    match appendIfMember location_data "state" p1 with
    | .error e => .error e
    | .ok p2 => appendIfMember location_data "country" p2

/-- The try block of get_location_name_fallback (src/app.py 111-134). -/
def fallback_try (outcome : HttpOutcome) : Py String :=
  match outcome with
  | .raised => .error .requestExn
  | .response code body =>
    if code = 200 then
      match body with
      | .error e => .error e
      | .ok data =>
        if data.truthy then
          match pyIndex0 data with
          | .error e => .error e
          | .ok location_data =>
            match fallbackParts location_data with
            | .error e => .error e
            | .ok parts =>
              if parts.isEmpty then .ok "Unknown Location"
              else
                match pyJoinComma parts with
                | .error e => .error e
                | .ok s => .ok s
        else .ok "Unknown Location"
    else .ok "Unknown Location"

/-- get_location_name_fallback (src/app.py 109-138): the try/except wrapper
turns every raised exception into the sentinel, so the function is total. -/
def get_location_name_fallback (lat lon : String) (outcome : HttpOutcome) :
    String :=
  match fallback_try outcome with
  | .ok s => s
  | .error _ => "Unknown Location"

/-- The location_parts dict built at src/app.py lines 68-84; each field holds
the latest long_name assigned to that slot (later components overwrite). -/
structure LocationParts where
  postal_code : Option Json := none
  street : Option Json := none
  area : Option Json := none
  city : Option Json := none
  state : Option Json := none
  country : Option Json := none
deriving Repr

/-- Lines 69-84: classify one address component into location_parts.  The
elif chain gives postal_code priority over route, etc.; sublocality is
tested before neighborhood because Python's `or` short-circuits. -/
def processComponent (lp : LocationParts) (component : Json) : Py LocationParts :=
  match pyGet component "types" with
  | .error e => .error e
  | .ok typesOpt =>
    let types := typesOpt.getD (Json.arr [])
    match pyGet component "long_name" with
    | .error e => .error e
    | .ok longOpt =>
      let long_name := longOpt.getD (Json.str "")
      match pyContains "postal_code" types with
      | .error e => .error e
      | .ok b1 =>
        if b1 then .ok { lp with postal_code := some long_name }
        else
          match pyContains "route" types with
          | .error e => .error e
          | .ok b2 =>
            if b2 then .ok { lp with street := some long_name }
            else
              match pyContains "sublocality" types with
              | .error e => .error e
              | .ok b3 =>
                if b3 then .ok { lp with area := some long_name }
                else
                  match pyContains "neighborhood" types with
                  | .error e => .error e
                  | .ok b4 =>
                    if b4 then .ok { lp with area := some long_name }
                    else
                      match pyContains "locality" types with
                      | .error e => .error e
                      | .ok b5 =>
                        if b5 then .ok { lp with city := some long_name }
                        else
                          match pyContains "administrative_area_level_1" types with
                          | .error e => .error e
                          | .ok b6 =>
                            if b6 then .ok { lp with state := some long_name }
                            else
                              match pyContains "country" types with
                              | .error e => .error e
                              | .ok b7 =>
                                if b7 then .ok { lp with country := some long_name }
                                else .ok lp

/-- Lines 87-95: postal code, then street, then area else city. -/
def primaryParts (lp : LocationParts) : List Json :=
  lp.postal_code.toList ++ lp.street.toList ++
    (match lp.area with
     | some a => [a]
     | none => lp.city.toList)

/-- What the try block of get_location_name decides: return a value of its
own (line 97), delegate to the fallback tier (lines 100 and 103), or raise
into the handler at line 105 (which also delegates). -/
inductive PrimaryStep where
  | value : Json → PrimaryStep
  | delegated : PrimaryStep
  | raisedExn : PrimaryStep
deriving Repr

/-- Lines 63-97: extraction from a primary payload that passed the
status == OK and non-empty-results test. -/
def primaryExtract (data : Json) : PrimaryStep :=
  match pySubscr data "results" with
  | .error _ => .raisedExn
  | .ok results =>
    match pyIndex0 results with
    | .error _ => .raisedExn
    | .ok result =>
      match pyGet result "address_components" with
      | .error _ => .raisedExn
      | .ok acOpt =>
        let address_components := acOpt.getD (Json.arr [])
        match pyIterate address_components with
        | .error _ => .raisedExn
        | .ok comps =>
          match comps.foldlM processComponent {} with
          | .error _ => .raisedExn
          | .ok lp =>
            let parts := primaryParts lp
            if parts.isEmpty then
              match pyGet result "formatted_address" with
              | .error _ => .raisedExn
              | .ok faOpt => .value (faOpt.getD (Json.str "Unknown Location"))
            else
              match pyJoinComma parts with
              | .error _ => .raisedExn
              | .ok s => .value (Json.str s)

/-- The try block of get_location_name (src/app.py 56-103). -/
def google_try (outcome : HttpOutcome) : PrimaryStep :=
  match outcome with
  | .raised => .raisedExn
  | .response code body =>
    if code = 200 then
      match body with
      | .error _ => .raisedExn
      | .ok data =>
        match pyGet data "status" with
        | .error _ => .raisedExn
        | .ok statusOpt =>
          if (statusOpt.getD Json.null).eqStr "OK" then
            match pyGet data "results" with
            | .error _ => .raisedExn
            | .ok resultsOpt =>
              if (resultsOpt.getD Json.null).truthy then
                primaryExtract data
              else .delegated
          else .delegated
    else .delegated

/-- Truthiness of an optional string, as in `if not GOOGLE_API_KEY` (line 51)
and `if not lat or not lon` (line 152): os.getenv / request.args.get give
None when absent, and the empty string is falsy too. -/
def optStrTruthy : Option String → Bool
  | none => false
  | some s => !(s == "")

/-- get_location_name (src/app.py 49-107), instrumented with the number of
calls made into get_location_name_fallback.  In the source the fallback
calls at lines 100/103 sit inside the try block, but get_location_name_fallback
is itself total (its own try/except), so each path performs at most one
fallback call. -/
def get_location_name (lat lon : String) (google_api_key : Option String)
    (primary fb : HttpOutcome) : Json × Nat :=
  if optStrTruthy google_api_key then
    match google_try primary with
    | .value v => (v, 0)
    | .delegated => (Json.str (get_location_name_fallback lat lon fb), 1)
    | .raisedExn => (Json.str (get_location_name_fallback lat lon fb), 1)
  else
    (Json.str (get_location_name_fallback lat lon fb), 1)

/-! ## Pure helpers (src/app.py lines 28-47) -/

/-- The row returned by get_air_quality_description; the cls field embeds
the source's 'class' key ('class' is reserved in Lean). -/
structure AqiInfo where
  description : String
  cls : String
  color : String
deriving DecidableEq, Repr

/-- get_air_quality_description (src/app.py 28-41). -/
def get_air_quality_description (aqi : ℤ) : AqiInfo :=
  if aqi = 1 then ⟨"Good", "good", "#00e400"⟩
  else if aqi = 2 then ⟨"Fair", "fair", "#ffff00"⟩
  else if aqi = 3 then ⟨"Moderate", "moderate", "#ff7e00"⟩
  else if aqi = 4 then ⟨"Poor", "poor", "#ff0000"⟩
  else if aqi = 5 then ⟨"Very Poor", "very-poor", "#8f3f97"⟩
  else ⟨"Unknown", "unknown", "#999999"⟩

/-- calculate_percentage (src/app.py 43-47); Python floats as rationals. -/
def calculate_percentage (value max_value : ℚ) : ℚ :=
  if max_value = 0 then 0
  else min 100 (value / max_value * 100)

/-! ## Air quality aggregator (src/app.py lines 145-257) -/

/-- Python `aqi == n` where the aqi read from the payload may be any JSON
value: numbers compare numerically, True/False equal 1/0, and all other
types compare unequal to an integer. -/
def Json.eqInt : Json → ℤ → Bool
  | .num q, n => q == (n : ℚ)
  | .bool b, n => (if b then (1 : ℤ) else 0) == n
  | _, _ => false

/-- get_air_quality_description as invoked at line 174, on the raw JSON
value found in the payload. -/
def get_air_quality_description_json (aqi : Json) : AqiInfo :=
  if aqi.eqInt 1 then ⟨"Good", "good", "#00e400"⟩
  else if aqi.eqInt 2 then ⟨"Fair", "fair", "#ffff00"⟩
  else if aqi.eqInt 3 then ⟨"Moderate", "moderate", "#ff7e00"⟩
  else if aqi.eqInt 4 then ⟨"Poor", "poor", "#ff0000"⟩
  else if aqi.eqInt 5 then ⟨"Very Poor", "very-poor", "#8f3f97"⟩
  else ⟨"Unknown", "unknown", "#999999"⟩

/-- max_values (src/app.py 177-184): the fixed WHO-guideline maxima. -/
def max_values : List (String × ℚ) :=
  [("pm2_5", 25), ("pm10", 50), ("co", 10000),
   ("no2", 200), ("so2", 350), ("o3", 180)]

/-- `max_values[k]` for the keys used by the route (all present). -/
def maxValueOf (k : String) : ℚ :=
  ((((max_values.filter (fun p => p.1 == k)).getLast?).map Prod.snd)).getD 0

/-- Python numeric coercion performed by the division inside
calculate_percentage: ints/floats are numbers, bools count as 0/1, every
other operand raises TypeError. -/
def Json.toNum : Json → Py ℚ
  | .num q => .ok q
  | .bool b => .ok (if b then 1 else 0)
  | _ => .error .otherExn

/-- One entry of component_data (src/app.py 187-230). -/
structure ComponentEntry where
  name : String
  value : Json
  percentage : ℚ
  unit : String
  description : String
deriving Repr

/-- The repeated block of lines 187-230 for one pollutant key: the raw value
defaults to 0 when the key is absent, and the percentage is
calculate_percentage of it against the guideline maximum.  Note
calculate_percentage tests max == 0 before dividing, so a non-numeric raw
value only raises (TypeError) when the maximum is nonzero. -/
def buildComponent (components : Json) (k : String) (maxv : ℚ)
    (name unit descr : String) : Py ComponentEntry :=
  match pyGet components k with
  | .error e => .error e
  | .ok vOpt =>
    let value := vOpt.getD (Json.num 0)
    if maxv = 0 then .ok ⟨name, value, calculate_percentage 0 maxv, unit, descr⟩
    else
      match value.toNum with
      | .error e => .error e
      | .ok q => .ok ⟨name, value, calculate_percentage q maxv, unit, descr⟩

/-- The JSON document assembled at lines 235-248. -/
structure AirQualityResult where
  aqi_value : Json
  aqi_info : AqiInfo
  components : List (String × ComponentEntry)
  lat : ℚ
  lon : ℚ
  location_name : Json
deriving Repr

/-- What the route hands back to the client: jsonify(result), or an error
document with its HTTP status code. -/
inductive ApiResponse where
  | ok : AirQualityResult → ApiResponse
  | error : Nat → String → ApiResponse
deriving Repr

/-- Digits accumulated into a natural number; none on a non-digit. -/
def decDigits? (cs : List Char) : Option ℕ :=
  cs.foldlM
    (fun acc c => if c.isDigit then some (acc * 10 + (c.toNat - 48)) else none) 0

/-- Model of Python float(s) at lines 244-245 for plain decimal literals:
optional sign, digits with an optional fractional part ("12", "12.", ".5",
"-3.25"); anything else raises ValueError.  (Python's float also accepts
exponent forms, inf/nan and surrounding whitespace; no claim needs them.) -/
def pyFloat? (s : String) : Option ℚ :=
  let signed : ℚ × List Char :=
    match s.data with
    | c :: rest =>
      if c = '-' then (-1, rest)
      else if c = '+' then (1, rest)
      else (1, c :: rest)
    | [] => (1, [])
  let intPart := signed.2.takeWhile Char.isDigit
  let rest := signed.2.dropWhile Char.isDigit
  let frac? : Option (List Char) :=
    match rest with
    | [] => some []
    | c :: frac =>
      if c = '.' then
        if frac.all Char.isDigit then some frac else none
      else none
  match frac? with
  | none => none
  | some frac =>
    if intPart.isEmpty && frac.isEmpty then none
    else
      match decDigits? intPart, decDigits? frac with
      | some ip, some fp =>
        some (signed.1 * ((ip : ℚ) + (fp : ℚ) / (10 : ℚ) ^ frac.length))
      | _, _ => none

/-- Lines 169-170: aqi_data['main']['aqi']. -/
def mainAqi (aqi_data : Json) : Py Json :=
  match pySubscr aqi_data "main" with
  | .error e => .error e
  | .ok mainObj => pySubscr mainObj "aqi"

/-- The try block of the /api/air-quality handler (src/app.py 148-250).
Inputs: the two query parameters, the outcome of the pollution fetch, the
configured Google key and the outcomes of the two geocoding lookups. -/
def get_air_quality_try (lat lon : Option String) (pollution : HttpOutcome)
    (google_api_key : Option String) (gPrimary gFallback : HttpOutcome) :
    Py ApiResponse :=
  if !(optStrTruthy lat) || !(optStrTruthy lon) then
    .ok (.error 400 "Latitude and longitude are required")
  else
    let latS := lat.getD ""
    let lonS := lon.getD ""
    match pollution with
    | .raised => .error .requestExn
    | .response code body =>
      if code ≠ 200 then .ok (.error 500 "Failed to fetch air quality data")
      else
        match body with
        | .error e => .error e
        | .ok data =>
          match pyContains "list" data with
          | .error e => .error e
          | .ok hasList =>
            if !hasList then .ok (.error 404 "No air quality data available")
            else
              match pySubscr data "list" with
              | .error e => .error e
              | .ok lst =>
                if !lst.truthy then .ok (.error 404 "No air quality data available")
                else
                  match pyIndex0 lst with
                  | .error e => .error e
                  | .ok aqi_data =>
                    match mainAqi aqi_data with
                    | .error e => .error e
                    | .ok aqi =>
                      match pySubscr aqi_data "components" with
                      | .error e => .error e
                      | .ok components =>
                        let aqi_info := get_air_quality_description_json aqi
                        match buildComponent components "pm2_5" (maxValueOf "pm2_5")
                            "PM2.5" "µg/m³" "Fine Particulate Matter" with
                        | .error e => .error e
                        | .ok c1 =>
                          match buildComponent components "pm10" (maxValueOf "pm10")
                              "PM10" "µg/m³" "Coarse Particulate Matter" with
                          | .error e => .error e
                          | .ok c2 =>
                            match buildComponent components "co" (maxValueOf "co")
                                "CO" "µg/m³" "Carbon Monoxide" with
                            | .error e => .error e
                            | .ok c3 =>
                              match buildComponent components "no2" (maxValueOf "no2")
                                  "NO₂" "µg/m³" "Nitrogen Dioxide" with
                              | .error e => .error e
                              | .ok c4 =>
                                match buildComponent components "so2" (maxValueOf "so2")
                                    "SO₂" "µg/m³" "Sulfur Dioxide" with
                                | .error e => .error e
                                | .ok c5 =>
                                  match buildComponent components "o3" (maxValueOf "o3")
                                      "O₃" "µg/m³" "Ozone" with
                                  | .error e => .error e
                                  | .ok c6 =>
                                    let location_name :=
                                      (get_location_name latS lonS google_api_key
                                        gPrimary gFallback).1
                                    match pyFloat? latS with
                                    | none => .error .otherExn
                                    | some la =>
                                      match pyFloat? lonS with
                                      | none => .error .otherExn
                                      | some lo =>
                                        .ok (.ok
                                          { aqi_value := aqi
                                            aqi_info := aqi_info
                                            components :=
                                              [("pm2_5", c1), ("pm10", c2), ("co", c3),
                                               ("no2", c4), ("so2", c5), ("o3", c6)]
                                            lat := la
                                            lon := lo
                                            location_name := location_name })

/-- get_air_quality (src/app.py 145-257): the try block wrapped in the two
exception handlers of lines 252-257. -/
def get_air_quality (lat lon : Option String) (pollution : HttpOutcome)
    (google_api_key : Option String) (gPrimary gFallback : HttpOutcome) :
    ApiResponse :=
  match get_air_quality_try lat lon pollution google_api_key gPrimary gFallback with
  | .ok r => r
  | .error .requestExn => .error 500 "Network error while fetching air quality data"
  | .error .otherExn => .error 500 "An unexpected error occurred"

/-! ## Notions used by the theorem statements -/

/-- The formatted_address field of the first result of a primary-tier
payload, when the payload has that shape (the value line 97 may return). -/
def primaryFormattedAddressData (data : Json) : Option Json :=
  match pySubscr data "results" with
  | .error _ => none
  | .ok results =>
    match pyIndex0 results with
    | .error _ => none
    | .ok result =>
      match pyGet result "formatted_address" with
      | .error _ => none
      | .ok faOpt => faOpt

/-- primaryFormattedAddressData applied to a successfully parsed primary
response body. -/
def primaryFormattedAddress : HttpOutcome → Option Json
  | .response _ (.ok data) => primaryFormattedAddressData data
  | _ => none

/-- The primary-tier failure conditions enumerated by the spec: no
configured credential, network error, non-200 HTTP status, non-OK status
field, or falsy (absent/empty) results list. -/
def primaryTierFails (key : Option String) (primary : HttpOutcome) : Prop :=
  optStrTruthy key = false ∨
  primary = .raised ∨
  (∃ code body, primary = .response code body ∧ code ≠ 200) ∨
  (∃ code data statusOpt, primary = .response code (.ok data) ∧
    pyGet data "status" = .ok statusOpt ∧
    (statusOpt.getD Json.null).eqStr "OK" = false) ∨
  (∃ code data statusOpt resultsOpt, primary = .response code (.ok data) ∧
    pyGet data "status" = .ok statusOpt ∧
    pyGet data "results" = .ok resultsOpt ∧
    (resultsOpt.getD Json.null).truthy = false)

/-- A secondary-provider record holding the given optional name, state and
country fragments. -/
def fragmentFields (nm st co : Option String) : List (String × Json) :=
  (nm.map (fun s => ("name", Json.str s))).toList ++
  (st.map (fun s => ("state", Json.str s))).toList ++
  (co.map (fun s => ("country", Json.str s))).toList

/-- A well-shaped pollution payload: a one-entry list holding an aqi value
and the given components object. -/
def pollutionPayload (aqi : Json) (ckvs : List (String × Json)) : Json :=
  Json.obj [("list", Json.arr [Json.obj
    [("main", Json.obj [("aqi", aqi)]), ("components", Json.obj ckvs)]])]

/-- The six pollutant keys of the guideline table. -/
def guidelineKeys : List String := max_values.map Prod.fst

/-- The key is absent from the components object, or holds a value Python
can divide (a number or a bool). -/
def numericOrAbsent (ckvs : List (String × Json)) (k : String) : Prop :=
  match lookupKey ckvs k with
  | none => True
  | some v => ∃ q, v.toNum = Except.ok q

/-! # Theorems -/

/-- Auxiliary: calculate_percentage at a positive maximum satisfies the
range, saturation and zero properties. -/
theorem calc_perc_props (m : ℚ) (hm : 0 < m) (v : ℚ) (hv : 0 ≤ v) :
    0 ≤ calculate_percentage v m ∧ calculate_percentage v m ≤ 100 ∧
      (m ≤ v → calculate_percentage v m = 100) ∧
      calculate_percentage 0 m = 0 := by
  have hm0 : m ≠ 0 := ne_of_gt hm
  unfold calculate_percentage
  simp only [hm0, if_false]
  refine ⟨?_, ?_, ?_, ?_⟩
  · exact le_min (by norm_num) (by positivity)
  · exact min_le_left _ _
  · intro hle
    have h1 : (1 : ℚ) ≤ v / m := (one_le_div hm).mpr hle
    have : (100 : ℚ) ≤ v / m * 100 := by nlinarith
    exact min_eq_left this
  · simp

/-- C2: calculate_percentage returns 0 when max_value = 0 and otherwise
min 100 (value / max_value * 100). -/
theorem C2_calculate_percentage_formula (value max_value : ℚ) :
    calculate_percentage value max_value =
      if max_value = 0 then 0 else min 100 (value / max_value * 100) := rfl

/-- C3: for every pollutant key of the fixed guideline table and every
nonnegative raw value, the percentage lies in [0, 100], equals 100 at or
above the guideline maximum, and equals 0 at raw value 0. -/
theorem C3_percentage_range (k : String) (m : ℚ)
    (hk : (k, m) ∈ max_values) (v : ℚ) (hv : 0 ≤ v) :
    0 ≤ calculate_percentage v m ∧ calculate_percentage v m ≤ 100 ∧
      (m ≤ v → calculate_percentage v m = 100) ∧
      calculate_percentage 0 m = 0 := by
  have hm : 0 < m := by
    simp only [max_values, List.mem_cons, List.mem_singleton,
      List.not_mem_nil, or_false, Prod.mk.injEq] at hk
    rcases hk with ⟨_, rfl⟩ | ⟨_, rfl⟩ | ⟨_, rfl⟩ | ⟨_, rfl⟩ | ⟨_, rfl⟩ | ⟨_, rfl⟩ <;>
      norm_num
  exact calc_perc_props m hm v hv

/-- Witness for C3 at the pm2_5 row and raw value 30. -/
theorem C3_percentage_range_witness :
    0 ≤ calculate_percentage 30 25 ∧ calculate_percentage 30 25 ≤ 100 ∧
      ((25 : ℚ) ≤ 30 → calculate_percentage 30 25 = 100) ∧
      calculate_percentage 0 25 = 0 :=
  C3_percentage_range "pm2_5" 25 (by simp [max_values]) 30 (by norm_num)

/-- C4: get_air_quality_description returns exactly the table row for
aqi in 1..5 and the Unknown row for every other integer; it is a total
function over ℤ with no failure mode. -/
theorem C4_aqi_description_table (aqi : ℤ) :
    (aqi = 1 → get_air_quality_description aqi = ⟨"Good", "good", "#00e400"⟩) ∧
    (aqi = 2 → get_air_quality_description aqi = ⟨"Fair", "fair", "#ffff00"⟩) ∧
    (aqi = 3 → get_air_quality_description aqi = ⟨"Moderate", "moderate", "#ff7e00"⟩) ∧
    (aqi = 4 → get_air_quality_description aqi = ⟨"Poor", "poor", "#ff0000"⟩) ∧
    (aqi = 5 → get_air_quality_description aqi = ⟨"Very Poor", "very-poor", "#8f3f97"⟩) ∧
    (¬(aqi = 1 ∨ aqi = 2 ∨ aqi = 3 ∨ aqi = 4 ∨ aqi = 5) →
      get_air_quality_description aqi = ⟨"Unknown", "unknown", "#999999"⟩) := by
  refine ⟨?_, ?_, ?_, ?_, ?_, ?_⟩ <;> intro h
  · simp [get_air_quality_description, h]
  · simp [get_air_quality_description, h]
  · simp [get_air_quality_description, h]
  · simp [get_air_quality_description, h]
  · simp [get_air_quality_description, h]
  · push_neg at h
    obtain ⟨h1, h2, h3, h4, h5⟩ := h
    simp [get_air_quality_description, h1, h2, h3, h4, h5]

/-- Witness for C4 at aqi = 0 (an out-of-table integer). -/
theorem C4_aqi_description_table_witness :
    get_air_quality_description 0 = ⟨"Unknown", "unknown", "#999999"⟩ :=
  (C4_aqi_description_table 0).2.2.2.2.2 (by norm_num)

/-- C8: get_air_quality_description and calculate_percentage are pure and
deterministic: equal inputs give equal outputs, with no dependence on any
external state (the embedded functions take no state parameter at all). -/
theorem C8_purity (a1 a2 : ℤ) (v1 v2 m1 m2 : ℚ)
    (ha : a1 = a2) (hv : v1 = v2) (hm : m1 = m2) :
    get_air_quality_description a1 = get_air_quality_description a2 ∧
      calculate_percentage v1 m1 = calculate_percentage v2 m2 := by
  subst ha; subst hv; subst hm; exact ⟨rfl, rfl⟩

/-- Witness for C8 at aqi 2 and the pm2_5 guideline computation. -/
theorem C8_purity_witness :
    get_air_quality_description 2 = get_air_quality_description 2 ∧
      calculate_percentage 12 25 = calculate_percentage 12 25 :=
  C8_purity 2 2 12 12 25 25 rfl rfl rfl

/-- C9: no lower clamping: for a negative value and a positive maximum the
result is exactly (value / max_value) * 100, which is strictly negative. -/
theorem C9_no_lower_clamp (v m : ℚ) (hv : v < 0) (hm : 0 < m) :
    calculate_percentage v m = v / m * 100 ∧ calculate_percentage v m < 0 := by
  have hm0 : m ≠ 0 := ne_of_gt hm
  have hneg : v / m * 100 < 0 := by
    have : v / m < 0 := div_neg_of_neg_of_pos hv hm
    nlinarith
  unfold calculate_percentage
  simp only [hm0, if_false]
  constructor
  · exact min_eq_right (le_of_lt (lt_of_lt_of_le hneg (by norm_num)))
  · rw [min_eq_right (le_of_lt (lt_of_lt_of_le hneg (by norm_num)))]
    exact hneg

/-- Witness for C9 at value -5 against the pm2_5 maximum 25. -/
theorem C9_no_lower_clamp_witness :
    calculate_percentage (-5) 25 = (-5) / 25 * 100 ∧
      calculate_percentage (-5) 25 < 0 :=
  C9_no_lower_clamp (-5) 25 (by norm_num) (by norm_num)

/-- Auxiliary: a value produced by the primary extraction is either a
string, or the verbatim formatted_address field of the first result. -/
theorem primaryExtract_value (data v : Json)
    (h : primaryExtract data = .value v) :
    v.isStr = true ∨ primaryFormattedAddressData data = some v := by
  unfold primaryExtract at h
  unfold primaryFormattedAddressData
  cases hrs : pySubscr data "results" with
  | error e => simp only [hrs] at h; exact PrimaryStep.noConfusion h
  | ok results =>
    simp only [hrs] at h
    cases hr0 : pyIndex0 results with
    | error e => simp only [hr0] at h; exact PrimaryStep.noConfusion h
    | ok result =>
      simp only [hr0] at h
      cases hac : pyGet result "address_components" with
      | error e => simp only [hac] at h; exact PrimaryStep.noConfusion h
      | ok acOpt =>
        simp only [hac] at h
        cases hit : pyIterate (acOpt.getD (Json.arr [])) with
        | error e => simp only [hit] at h; exact PrimaryStep.noConfusion h
        | ok comps =>
          simp only [hit] at h
          cases hfold : comps.foldlM processComponent {} with
          | error e => simp only [hfold] at h; exact PrimaryStep.noConfusion h
          | ok lp =>
            simp only [hfold] at h
            by_cases hpe : (primaryParts lp).isEmpty
            · simp only [hpe, if_true] at h
              cases hfa : pyGet result "formatted_address" with
              | error e => simp only [hfa] at h; exact PrimaryStep.noConfusion h
              | ok faOpt =>
                simp only [hfa] at h
                cases faOpt with
                | none =>
                  left
                  simp only [Option.getD] at h
                  cases h
                  rfl
                | some w =>
                  right
                  simp only [hrs, hr0, hfa]
                  simp only [Option.getD] at h
                  cases h
                  rfl
            · simp only [hpe, if_false] at h
              cases hj : pyJoinComma (primaryParts lp) with
              | error e => simp only [hj] at h; exact PrimaryStep.noConfusion h
              | ok s =>
                simp only [hj] at h
                left
                cases h
                rfl

/-- Auxiliary: any value the primary try block returns by itself is either
a string or the echoed formatted_address of the first result. -/
theorem google_try_value (outcome : HttpOutcome) (v : Json)
    (h : google_try outcome = .value v) :
    v.isStr = true ∨ primaryFormattedAddress outcome = some v := by
  cases outcome with
  | raised => exact PrimaryStep.noConfusion h
  | response code body =>
    unfold google_try at h
    by_cases hc : code = 200
    · simp only [hc, if_true] at h
      cases body with
      | error e => exact PrimaryStep.noConfusion h
      | ok data =>
        cases hst : pyGet data "status" with
        | error e => simp only [hst] at h; exact PrimaryStep.noConfusion h
        | ok statusOpt =>
          simp only [hst] at h
          by_cases hok : (statusOpt.getD Json.null).eqStr "OK" = true
          · simp only [hok, if_true] at h
            cases hres : pyGet data "results" with
            | error e => simp only [hres] at h; exact PrimaryStep.noConfusion h
            | ok resultsOpt =>
              simp only [hres] at h
              by_cases htr : (resultsOpt.getD Json.null).truthy = true
              · simp only [htr, if_true] at h
                rcases primaryExtract_value data v h with hs | hfa
                · exact Or.inl hs
                · exact Or.inr hfa
              · simp only [htr, if_false] at h
                exact PrimaryStep.noConfusion h
          · simp only [hok, if_false] at h
            exact PrimaryStep.noConfusion h
    · simp only [hc, if_false] at h
      exact PrimaryStep.noConfusion h

/-- Auxiliary: under any of the spec's primary-tier failure conditions the
try block does not produce a value of its own. -/
theorem google_try_not_value (key : Option String) (primary : HttpOutcome)
    (hkey : optStrTruthy key = true) (hfail : primaryTierFails key primary) :
    google_try primary = .delegated ∨ google_try primary = .raisedExn := by
  rcases hfail with hk | hraise | ⟨code, body, rfl, hcode⟩ |
      ⟨code, data, statusOpt, rfl, hst, hok⟩ |
      ⟨code, data, statusOpt, resultsOpt, rfl, hst, hres, htr⟩
  · rw [hkey] at hk; exact Bool.noConfusion hk
  · rw [hraise]; right; rfl
  · left; unfold google_try; simp only [hcode, if_false]
  · by_cases hc : code = 200
    · left
      unfold google_try
      simp [hc, hst, hok]
    · left; unfold google_try; simp only [hc, if_false]
  · by_cases hc : code = 200
    · unfold google_try
      simp only [hc, if_true, hst, hres]
      by_cases hok : (statusOpt.getD Json.null).eqStr "OK" = true
      · simp [hok, htr]
      · simp [hok]
    · left; unfold google_try; simp only [hc, if_false]

/-- Auxiliary: whenever the primary tier fails, the resolver returns the
fallback tier's string and has called the fallback exactly once. -/
theorem get_location_name_delegates (lat lon : String) (key : Option String)
    (primary fb : HttpOutcome) (hfail : primaryTierFails key primary) :
    get_location_name lat lon key primary fb
      = (Json.str (get_location_name_fallback lat lon fb), 1) := by
  unfold get_location_name
  by_cases hkey : optStrTruthy key = true
  · rcases google_try_not_value key primary hkey hfail with h | h <;>
      simp only [hkey, if_true, h]
  · simp only [Bool.not_eq_true] at hkey
    simp only [hkey, Bool.false_eq_true, if_false]

/-- Auxiliary: the fallback tier, on a 200 response whose first record holds
the given optional name/state/country string fragments, returns those
fragments joined with ", " whenever at least one is present. -/
theorem fallback_fragments (lat lon : String) (nm st co : Option String)
    (rest : List Json) (hne : nm ≠ none ∨ st ≠ none ∨ co ≠ none) :
    get_location_name_fallback lat lon
        (.response 200 (.ok (Json.arr (Json.obj (fragmentFields nm st co) :: rest))))
      = String.intercalate ", " (nm.toList ++ st.toList ++ co.toList) := by
  cases nm <;> cases st <;> cases co <;>
    simp_all [get_location_name_fallback, fallback_try, fallbackParts,
      appendIfMember, pyContains, pySubscr, lookupKey, fragmentFields,
      pyJoinComma, pyIndex0, Json.truthy, Json.eqStr,
      List.mapM, List.mapM.loop]

/-- C1 (amended): the resolver is total — for every configuration and every
outcome of the two external lookups it returns a value and never raises.
The returned value is a string except on the single path that echoes the
primary payload's formatted_address field verbatim (which can be a
non-string JSON value for a malformed payload); when both lookups raise,
the result is exactly the sentinel "Unknown Location". -/
theorem C1_resolver_never_raises (lat lon : String) (key : Option String)
    (primary fb : HttpOutcome) :
    ((get_location_name lat lon key primary fb).1.isStr = true ∨
      primaryFormattedAddress primary
        = some (get_location_name lat lon key primary fb).1) ∧
    (primary = .raised → fb = .raised →
      (get_location_name lat lon key primary fb).1 = Json.str "Unknown Location") := by
  constructor
  · unfold get_location_name
    by_cases hkey : optStrTruthy key = true
    · simp only [hkey, if_true]
      cases hg : google_try primary with
      | value v => simpa using google_try_value primary v hg
      | delegated => left; rfl
      | raisedExn => left; rfl
    · simp only [Bool.not_eq_true] at hkey
      simp only [hkey, Bool.false_eq_true, if_false]
      left; rfl
  · rintro rfl rfl
    unfold get_location_name
    by_cases hkey : optStrTruthy key = true
    · simp only [hkey, if_true]
      rfl
    · simp only [Bool.not_eq_true] at hkey
      simp only [hkey, Bool.false_eq_true, if_false]
      rfl

/-- Witness for C1 with no configured key and both lookups raising. -/
theorem C1_resolver_never_raises_witness :
    ((get_location_name "28.6" "77.2" none .raised .raised).1.isStr = true ∨
      primaryFormattedAddress .raised
        = some (get_location_name "28.6" "77.2" none .raised .raised).1) ∧
    (get_location_name "28.6" "77.2" none .raised .raised).1
      = Json.str "Unknown Location" :=
  ⟨(C1_resolver_never_raises "28.6" "77.2" none .raised .raised).1,
   (C1_resolver_never_raises "28.6" "77.2" none .raised .raised).2 rfl rfl⟩

/-- C1 counterexample to the claim as stated: with a primary payload whose
first result has a non-string formatted_address and no address components,
the resolver returns that non-string value, so it does not always return a
location string. -/
theorem C1_counterexample :
    (get_location_name "28.6" "77.2" (some "key")
        (.response 200 (.ok (Json.obj [("status", Json.str "OK"),
          ("results", Json.arr [Json.obj [("formatted_address", Json.num 42)]])])))
        .raised).1 = Json.num 42 ∧
      (Json.num 42).isStr = false :=
  ⟨rfl, rfl⟩

/-- C5 (amended): whenever the primary tier fails in one of the listed ways,
the resolver invokes the secondary tier exactly once and returns its
string; when the secondary tier succeeds with at least one result that has
at least one of the {name, state, country} fragments, the resolver returns
the present fragments joined in that order with ", " (with no fragments the
secondary tier produces the sentinel instead). -/
theorem C5_secondary_tier (lat lon : String) (key : Option String)
    (primary fb : HttpOutcome) (hfail : primaryTierFails key primary) :
    get_location_name lat lon key primary fb
        = (Json.str (get_location_name_fallback lat lon fb), 1) ∧
    (∀ nm st co : Option String, ∀ rest : List Json,
      (nm ≠ none ∨ st ≠ none ∨ co ≠ none) →
      fb = .response 200
          (.ok (Json.arr (Json.obj (fragmentFields nm st co) :: rest))) →
      get_location_name lat lon key primary fb
        = (Json.str (String.intercalate ", "
            (nm.toList ++ st.toList ++ co.toList)), 1)) := by
  refine ⟨get_location_name_delegates lat lon key primary fb hfail, ?_⟩
  rintro nm st co rest hne rfl
  rw [get_location_name_delegates lat lon key primary _ hfail,
    fallback_fragments lat lon nm st co rest hne]

/-- Witness for C5: no key configured, secondary returns a record with name
"Delhi" and country "IN". -/
theorem C5_secondary_tier_witness :
    get_location_name "28.6" "77.2" none .raised
        (.response 200 (.ok (Json.arr
          [Json.obj (fragmentFields (some "Delhi") none (some "IN"))])))
      = (Json.str "Delhi, IN", 1) := by
  have h := C5_secondary_tier "28.6" "77.2" none .raised
      (.response 200 (.ok (Json.arr
        [Json.obj (fragmentFields (some "Delhi") none (some "IN"))])))
      (Or.inl rfl)
  simpa using h.2 (some "Delhi") none (some "IN") []
      (Or.inl (by simp)) rfl

/-- C5 counterexample to the claim as stated: the primary tier fails with a
non-OK status, the secondary tier succeeds with one result, yet the result
has no name/state/country fragments, so the resolver returns the sentinel,
contradicting "not the sentinel". -/
theorem C5_counterexample :
    get_location_name "28.6" "77.2" (some "key")
        (.response 200 (.ok (Json.obj [("status", Json.str "ZERO_RESULTS")])))
        (.response 200 (.ok (Json.arr [Json.obj [("lon", Json.num 77)]])))
      = (Json.str "Unknown Location", 1) := rfl

/-- C10: when the primary provider answers 200/OK with a non-empty results
list whose first result yields no postal_code/route/sublocality-or-
neighborhood/locality fragment and has no formatted_address field, the
resolver returns the sentinel directly from the primary tier, with zero
calls into the secondary fallback provider. -/
theorem C10_primary_sentinel_no_fallback (lat lon : String)
    (key : Option String) (fb : HttpOutcome)
    (hkey : optStrTruthy key = true)
    (kvs rkvs : List (String × Json)) (rs : List Json)
    (hstatus : lookupKey kvs "status" = some (Json.str "OK"))
    (hresults : lookupKey kvs "results" = some (Json.arr (Json.obj rkvs :: rs)))
    (comps : List Json)
    (hiter : pyIterate ((lookupKey rkvs "address_components").getD (Json.arr []))
      = .ok comps)
    (lp : LocationParts)
    (hfold : comps.foldlM processComponent {} = .ok lp)
    (hpc : lp.postal_code = none) (hst : lp.street = none)
    (har : lp.area = none) (hci : lp.city = none)
    (hfa : lookupKey rkvs "formatted_address" = none) :
    get_location_name lat lon key (.response 200 (.ok (Json.obj kvs))) fb
      = (Json.str "Unknown Location", 0) := by
  have hg : google_try (.response 200 (.ok (Json.obj kvs)))
      = .value (Json.str "Unknown Location") := by
    unfold google_try primaryExtract
    simp [pyGet, pySubscr, pyIndex0, hstatus, hresults, hiter, hfold, hfa,
      primaryParts, hpc, hst, har, hci, Json.eqStr, Json.truthy]
  unfold get_location_name
  simp only [hkey, if_true, hg]

/-- Witness for C10: a 200/OK primary payload whose only address component
is a country (not one of the selected fragment kinds) and whose result has
no formatted_address. -/
theorem C10_primary_sentinel_no_fallback_witness :
    get_location_name "28.6" "77.2" (some "key")
        (.response 200 (.ok (Json.obj [("status", Json.str "OK"),
          ("results", Json.arr [Json.obj [("address_components",
            Json.arr [Json.obj [("types", Json.arr [Json.str "country"]),
                                ("long_name", Json.str "India")]])]])])))
        .raised
      = (Json.str "Unknown Location", 0) :=
  C10_primary_sentinel_no_fallback "28.6" "77.2" (some "key") .raised rfl
    [("status", Json.str "OK"),
     ("results", Json.arr [Json.obj [("address_components",
       Json.arr [Json.obj [("types", Json.arr [Json.str "country"]),
                           ("long_name", Json.str "India")]])]])]
    [("address_components",
      Json.arr [Json.obj [("types", Json.arr [Json.str "country"]),
                          ("long_name", Json.str "India")]])]
    [] rfl rfl
    [Json.obj [("types", Json.arr [Json.str "country"]),
               ("long_name", Json.str "India")]]
    rfl
    { country := some (Json.str "India") }
    rfl rfl rfl rfl rfl rfl

/-- Auxiliary: a string float-parses only if it is non-empty, hence truthy. -/
theorem optStrTruthy_of_parse (s : String) (q : ℚ)
    (h : pyFloat? s = some q) : optStrTruthy (some s) = true := by
  unfold optStrTruthy
  by_cases hs : s = ""
  · subst hs
    rw [show pyFloat? "" = (none : Option ℚ) from rfl] at h
    exact Option.noConfusion h
  · simp [hs]

/-- Auxiliary: evaluation of one component_data block when the raw value
(or its default 0) is Python-numeric and the guideline maximum is nonzero. -/
theorem buildComponent_eval (ckvs : List (String × Json)) (k : String)
    (maxv : ℚ) (hm : ¬(maxv = 0)) (name unit descr : String) (q : ℚ)
    (hq : ((lookupKey ckvs k).getD (Json.num 0)).toNum = Except.ok q) :
    buildComponent (Json.obj ckvs) k maxv name unit descr
      = .ok ⟨name, (lookupKey ckvs k).getD (Json.num 0),
          calculate_percentage q maxv, unit, descr⟩ := by
  unfold buildComponent
  simp only [pyGet, hm, if_false, hq]

/-- Auxiliary: on a well-shaped pollution payload with parseable coordinates
and numeric-or-absent pollutant values, the route returns a full result for
every configuration and every geocoding outcome. -/
theorem route_ok_of_shaped (latS lonS : String) (key : Option String)
    (gP gF : HttpOutcome) (aqi : Json) (ckvs : List (String × Json))
    (la lo : ℚ) (hlat : pyFloat? latS = some la) (hlon : pyFloat? lonS = some lo)
    (q1 q2 q3 q4 q5 q6 : ℚ)
    (h1 : ((lookupKey ckvs "pm2_5").getD (Json.num 0)).toNum = Except.ok q1)
    (h2 : ((lookupKey ckvs "pm10").getD (Json.num 0)).toNum = Except.ok q2)
    (h3 : ((lookupKey ckvs "co").getD (Json.num 0)).toNum = Except.ok q3)
    (h4 : ((lookupKey ckvs "no2").getD (Json.num 0)).toNum = Except.ok q4)
    (h5 : ((lookupKey ckvs "so2").getD (Json.num 0)).toNum = Except.ok q5)
    (h6 : ((lookupKey ckvs "o3").getD (Json.num 0)).toNum = Except.ok q6) :
    get_air_quality (some latS) (some lonS)
        (.response 200 (.ok (pollutionPayload aqi ckvs))) key gP gF
      = .ok { aqi_value := aqi
              aqi_info := get_air_quality_description_json aqi
              components := [
                ("pm2_5", ⟨"PM2.5", (lookupKey ckvs "pm2_5").getD (Json.num 0),
                  calculate_percentage q1 25, "µg/m³", "Fine Particulate Matter"⟩),
                ("pm10", ⟨"PM10", (lookupKey ckvs "pm10").getD (Json.num 0),
                  calculate_percentage q2 50, "µg/m³", "Coarse Particulate Matter"⟩),
                ("co", ⟨"CO", (lookupKey ckvs "co").getD (Json.num 0),
                  calculate_percentage q3 10000, "µg/m³", "Carbon Monoxide"⟩),
                ("no2", ⟨"NO₂", (lookupKey ckvs "no2").getD (Json.num 0),
                  calculate_percentage q4 200, "µg/m³", "Nitrogen Dioxide"⟩),
                ("so2", ⟨"SO₂", (lookupKey ckvs "so2").getD (Json.num 0),
                  calculate_percentage q5 350, "µg/m³", "Sulfur Dioxide"⟩),
                ("o3", ⟨"O₃", (lookupKey ckvs "o3").getD (Json.num 0),
                  calculate_percentage q6 180, "µg/m³", "Ozone"⟩)]
              lat := la
              lon := lo
              location_name := (get_location_name latS lonS key gP gF).1 } := by
  have htl := optStrTruthy_of_parse latS la hlat
  have htn := optStrTruthy_of_parse lonS lo hlon
  have hm1 : maxValueOf "pm2_5" = 25 := rfl
  have hm2 : maxValueOf "pm10" = 50 := rfl
  have hm3 : maxValueOf "co" = 10000 := rfl
  have hm4 : maxValueOf "no2" = 200 := rfl
  have hm5 : maxValueOf "so2" = 350 := rfl
  have hm6 : maxValueOf "o3" = 180 := rfl
  have e1 := buildComponent_eval ckvs "pm2_5" 25 (by norm_num)
    "PM2.5" "µg/m³" "Fine Particulate Matter" q1 h1
  have e2 := buildComponent_eval ckvs "pm10" 50 (by norm_num)
    "PM10" "µg/m³" "Coarse Particulate Matter" q2 h2
  have e3 := buildComponent_eval ckvs "co" 10000 (by norm_num)
    "CO" "µg/m³" "Carbon Monoxide" q3 h3
  have e4 := buildComponent_eval ckvs "no2" 200 (by norm_num)
    "NO₂" "µg/m³" "Nitrogen Dioxide" q4 h4
  have e5 := buildComponent_eval ckvs "so2" 350 (by norm_num)
    "SO₂" "µg/m³" "Sulfur Dioxide" q5 h5
  have e6 := buildComponent_eval ckvs "o3" 180 (by norm_num)
    "O₃" "µg/m³" "Ozone" q6 h6
  unfold get_air_quality get_air_quality_try
  simp only [htl, htn, Bool.not_true, Bool.or_self, Bool.false_eq_true, if_false,
    pollutionPayload, pyContains, pySubscr, pyIndex0, mainAqi, lookupKey,
    hm1, hm2, hm3, hm4, hm5, hm6, e1, e2, e3, e4, e5, e6, hlat, hlon]
  simp [Json.truthy, lookupKey, e1, e2, e3, e4, e5, e6, hlat, hlon]

/-- Auxiliary: numeric-or-absent raw values always coerce (absent keys
default to the number 0). -/
theorem numericOrAbsent_toNum (ckvs : List (String × Json)) (k : String)
    (h : numericOrAbsent ckvs k) :
    ∃ q, ((lookupKey ckvs k).getD (Json.num 0)).toNum = Except.ok q := by
  unfold numericOrAbsent at h
  cases hk : lookupKey ckvs k with
  | none => exact ⟨0, by simp [hk, Json.toNum]⟩
  | some v =>
    simp only [hk] at h
    simpa [hk] using h

/-- Auxiliary: the percentage of the defaulted raw value 0 is 0. -/
theorem calc_perc_zero (m : ℚ) (hm : ¬(m = 0)) : calculate_percentage 0 m = 0 := by
  unfold calculate_percentage
  rw [if_neg hm]
  norm_num

/-- Auxiliary: every result object the route ever returns carries exactly
the six pollutant keys in the fixed insertion order. -/
theorem try_ok_components (lat lon : Option String) (pollution : HttpOutcome)
    (key : Option String) (gP gF : HttpOutcome) (r : AirQualityResult)
    (h : get_air_quality_try lat lon pollution key gP gF = .ok (.ok r)) :
    r.components.map Prod.fst = ["pm2_5", "pm10", "co", "no2", "so2", "o3"] := by
  simp only [get_air_quality_try] at h
  repeat' split at h
  all_goals simp_all
  subst h
  rfl

/-- C7: every result the aggregator returns lists exactly the six pollutant
keys in the fixed insertion order pm2_5, pm10, co, no2, so2, o3; and on a
payload whose components object omits some of those keys (the others being
numeric), the aggregator treats each absent key's raw value as 0, so its
reading has value 0 and percentage 0. -/
theorem C7_absent_keys_default_zero :
    (∀ lat lon pollution key gP gF r,
      get_air_quality lat lon pollution key gP gF = .ok r →
      r.components.map Prod.fst = ["pm2_5", "pm10", "co", "no2", "so2", "o3"]) ∧
    (∀ latS lonS key gP gF aqi ckvs la lo,
      pyFloat? latS = some la → pyFloat? lonS = some lo →
      (∀ k, k ∈ guidelineKeys → numericOrAbsent ckvs k) →
      ∃ r, get_air_quality (some latS) (some lonS)
            (.response 200 (.ok (pollutionPayload aqi ckvs))) key gP gF = .ok r ∧
        r.components.map Prod.fst = ["pm2_5", "pm10", "co", "no2", "so2", "o3"] ∧
        (∀ k, k ∈ guidelineKeys → lookupKey ckvs k = none →
          (r.components.lookup k).map (fun c => (c.value, c.percentage))
            = some (Json.num 0, (0 : ℚ)))) := by
  constructor
  · intro lat lon pollution key gP gF r h
    unfold get_air_quality at h
    cases htry : get_air_quality_try lat lon pollution key gP gF with
    | error e =>
      simp only [htry] at h
      cases e <;> simp at h
    | ok resp =>
      simp only [htry] at h
      subst h
      exact try_ok_components lat lon pollution key gP gF r htry
  · intro latS lonS key gP gF aqi ckvs la lo hlat hlon hnum
    obtain ⟨q1, hq1⟩ := numericOrAbsent_toNum ckvs "pm2_5"
      (hnum "pm2_5" (by simp [guidelineKeys, max_values]))
    obtain ⟨q2, hq2⟩ := numericOrAbsent_toNum ckvs "pm10"
      (hnum "pm10" (by simp [guidelineKeys, max_values]))
    obtain ⟨q3, hq3⟩ := numericOrAbsent_toNum ckvs "co"
      (hnum "co" (by simp [guidelineKeys, max_values]))
    obtain ⟨q4, hq4⟩ := numericOrAbsent_toNum ckvs "no2"
      (hnum "no2" (by simp [guidelineKeys, max_values]))
    obtain ⟨q5, hq5⟩ := numericOrAbsent_toNum ckvs "so2"
      (hnum "so2" (by simp [guidelineKeys, max_values]))
    obtain ⟨q6, hq6⟩ := numericOrAbsent_toNum ckvs "o3"
      (hnum "o3" (by simp [guidelineKeys, max_values]))
    refine ⟨_, route_ok_of_shaped latS lonS key gP gF aqi ckvs la lo hlat hlon
      q1 q2 q3 q4 q5 q6 hq1 hq2 hq3 hq4 hq5 hq6, by simp, ?_⟩
    intro k hk hnone
    have hkd : k = "pm2_5" ∨ k = "pm10" ∨ k = "co" ∨ k = "no2" ∨
        k = "so2" ∨ k = "o3" := by
      simpa [guidelineKeys, max_values] using hk
    rcases hkd with rfl | rfl | rfl | rfl | rfl | rfl
    · rw [hnone] at hq1
      have : q1 = 0 := by symm; simpa [Json.toNum] using hq1
      subst this
      simp [hnone, List.lookup, calc_perc_zero]
    · rw [hnone] at hq2
      have : q2 = 0 := by symm; simpa [Json.toNum] using hq2
      subst this
      simp [hnone, List.lookup, calc_perc_zero]
    · rw [hnone] at hq3
      have : q3 = 0 := by symm; simpa [Json.toNum] using hq3
      subst this
      simp [hnone, List.lookup, calc_perc_zero]
    · rw [hnone] at hq4
      have : q4 = 0 := by symm; simpa [Json.toNum] using hq4
      subst this
      simp [hnone, List.lookup, calc_perc_zero]
    · rw [hnone] at hq5
      have : q5 = 0 := by symm; simpa [Json.toNum] using hq5
      subst this
      simp [hnone, List.lookup, calc_perc_zero]
    · rw [hnone] at hq6
      have : q6 = 0 := by symm; simpa [Json.toNum] using hq6
      subst this
      simp [hnone, List.lookup, calc_perc_zero]

/-- Witness for C7: aqi 2 and an empty components object (all six keys
absent), parseable coordinates. -/
theorem C7_absent_keys_default_zero_witness :
    ∃ r, get_air_quality (some "12.5") (some "77.2")
          (.response 200 (.ok (pollutionPayload (Json.num 2) [])))
          none .raised .raised
        = .ok r ∧
      r.components.map Prod.fst = ["pm2_5", "pm10", "co", "no2", "so2", "o3"] ∧
      (∀ k, k ∈ guidelineKeys → lookupKey [] k = none →
        (r.components.lookup k).map (fun c => (c.value, c.percentage))
          = some (Json.num 0, (0 : ℚ))) :=
  C7_absent_keys_default_zero.2 "12.5" "77.2" none .raised .raised
    (Json.num 2) [] (25/2) (386/5)
    (by simp [pyFloat?, decDigits?]; norm_num)
    (by simp [pyFloat?, decDigits?]; norm_num)
    (fun _ _ => trivial)

/-- C6 (amended): with the upstream fetch returning 200 and a parsed body,
the aggregator surfaces a distinct 404 data-unavailable error when the
payload's list is missing or empty, and a generic 500 error when the AQI
entry is missing; these are not the only error cases (other malformed
payloads, e.g. a missing components mapping, also surface errors).
Geocoding outcomes never fail upward: on well-shaped payloads the
aggregator returns a full result for every geocoding outcome. -/
theorem C6_data_unavailable :
    (∀ lat lon key gP gF data hasList,
      optStrTruthy lat = true → optStrTruthy lon = true →
      pyContains "list" data = .ok hasList →
      (hasList = false ∨
        (∃ lst, pySubscr data "list" = .ok lst ∧ lst.truthy = false)) →
      get_air_quality lat lon (.response 200 (.ok data)) key gP gF
        = .error 404 "No air quality data available") ∧
    (∀ lat lon key gP gF data lst aqi_data,
      optStrTruthy lat = true → optStrTruthy lon = true →
      pyContains "list" data = .ok true →
      pySubscr data "list" = .ok lst → lst.truthy = true →
      pyIndex0 lst = .ok aqi_data →
      mainAqi aqi_data = .error .otherExn →
      get_air_quality lat lon (.response 200 (.ok data)) key gP gF
        = .error 500 "An unexpected error occurred") ∧
    (∀ latS lonS key gP gF aqi ckvs la lo,
      pyFloat? latS = some la → pyFloat? lonS = some lo →
      (∀ k, k ∈ guidelineKeys → numericOrAbsent ckvs k) →
      ∃ r, get_air_quality (some latS) (some lonS)
            (.response 200 (.ok (pollutionPayload aqi ckvs))) key gP gF
          = .ok r) := by
  refine ⟨?_, ?_, ?_⟩
  · intro lat lon key gP gF data hasList hlat hlon hcl hcase
    unfold get_air_quality get_air_quality_try
    rcases hcase with rfl | ⟨lst, hlst, htr⟩
    · simp [hlat, hlon, hcl]
    · cases hasList
      · simp [hlat, hlon, hcl]
      · simp [hlat, hlon, hcl, hlst, htr]
  · intro lat lon key gP gF data lst aqi_data hlat hlon hcl hlst htr hidx hma
    unfold get_air_quality get_air_quality_try
    simp [hlat, hlon, hcl, hlst, htr, hidx, hma]
  · intro latS lonS key gP gF aqi ckvs la lo hlat hlon hnum
    obtain ⟨q1, hq1⟩ := numericOrAbsent_toNum ckvs "pm2_5"
      (hnum "pm2_5" (by simp [guidelineKeys, max_values]))
    obtain ⟨q2, hq2⟩ := numericOrAbsent_toNum ckvs "pm10"
      (hnum "pm10" (by simp [guidelineKeys, max_values]))
    obtain ⟨q3, hq3⟩ := numericOrAbsent_toNum ckvs "co"
      (hnum "co" (by simp [guidelineKeys, max_values]))
    obtain ⟨q4, hq4⟩ := numericOrAbsent_toNum ckvs "no2"
      (hnum "no2" (by simp [guidelineKeys, max_values]))
    obtain ⟨q5, hq5⟩ := numericOrAbsent_toNum ckvs "so2"
      (hnum "so2" (by simp [guidelineKeys, max_values]))
    obtain ⟨q6, hq6⟩ := numericOrAbsent_toNum ckvs "o3"
      (hnum "o3" (by simp [guidelineKeys, max_values]))
    exact ⟨_, route_ok_of_shaped latS lonS key gP gF aqi ckvs la lo hlat hlon
      q1 q2 q3 q4 q5 q6 hq1 hq2 hq3 hq4 hq5 hq6⟩

/-- Witness for C6: a payload with no list key at all yields the distinct
404 data-unavailable error. -/
theorem C6_data_unavailable_witness :
    get_air_quality (some "12.5") (some "77.2")
        (.response 200 (.ok (Json.obj []))) none .raised .raised
      = .error 404 "No air quality data available" :=
  C6_data_unavailable.1 (some "12.5") (some "77.2") none .raised .raised
    (Json.obj []) false rfl rfl rfl (Or.inl rfl)

/-- C6 counterexample to the claim as stated: a payload whose list is
non-empty and whose AQI entry is present, but whose components mapping is
missing, also surfaces an error (the generic 500), so the two listed
data-unavailable cases are not the only error-surfacing cases. -/
theorem C6_counterexample :
    get_air_quality (some "12.5") (some "77.2")
        (.response 200 (.ok (Json.obj [("list", Json.arr [Json.obj
          [("main", Json.obj [("aqi", Json.num 2)])]])])))
        none .raised .raised
      = .error 500 "An unexpected error occurred" := rfl
